import Mathlib

set_option maxRecDepth 8000

/-!
# SkillDuels backend — verification of the real-time match engine

Shallow embedding of `src/socket/socketHandler.js` (the match orchestration
core) together with the parts of the data model it reads
(`src/models/Question.js`, `Match`, `Category`).

The JavaScript `gameRooms` registry is a `Map` whose values are shared
mutable `Room` objects (the same object is stored under the match id key and
under the join-code key).  We model object identity by splitting the registry
into an `index` (registry key → store key) and a `store` (store key → Room
value); a mutation of the shared object is a single write to the store.
Timers (`setTimeout`) are modelled as pending single-shot events identified
by a fresh numeric id; firing a timer is an explicit event of the step
relation, and a timer id that is no longer pending (already fired or cleared
by `clearTimeout`) fires as a no-op.
-/

namespace SkillDuels

/-- One answer option of a question: `{ id, text }`. -/
structure QOption where
  id : Int
  text : String
deriving DecidableEq, Repr

/-- A question document as stored in the database (`src/models/Question.js`);
only the fields read by match creation are kept.  `isActive` is an `Option`
because a document may lack the field (the aggregation matches
`isActive: { $ne: false }`, which accepts a missing field). -/
structure DbQuestion where
  qid : String
  text : String
  options : List QOption
  correctOptionId : Int
  difficulty : String
  category : String
  isApproved : Bool
  isActive : Option Bool
deriving DecidableEq, Repr

/-- The question snapshot held in a Room: the `$project` stage of the
create-match aggregation keeps `_id, text, options, correctOptionId,
difficulty, category`. -/
structure Question where
  qid : String
  text : String
  options : List QOption
  correctOptionId : Int
  difficulty : String
  category : String
deriving DecidableEq, Repr

/-- The `$project` stage applied to one document. -/
def projectQuestion (q : DbQuestion) : Question :=
  { qid := q.qid, text := q.text, options := q.options,
    correctOptionId := q.correctOptionId, difficulty := q.difficulty,
    category := q.category }

/-- A category document (`src/models/Category.js`): id and name. -/
structure Category where
  cid : String
  name : String
deriving DecidableEq, Repr

/-- Per-player live state inside a Room (socketHandler.js lines 234-243). -/
structure Player where
  userId : String
  socketId : String
  username : String
  answered : Bool
  disconnected : Bool
  finishReady : Bool
deriving DecidableEq, Repr

/-- A stored per-question answer record (`room.answers[userId]`,
lines 496-501). -/
structure AnswerRec where
  questionIndex : Nat
  selectedOptionId : Int
  isCorrect : Bool
  xpAwarded : Nat
deriving DecidableEq, Repr

/-- The persisted `Match` document, reduced to the fields the socket layer
checks (`state` and the number of players). -/
structure MatchDoc where
  state : String
  playerCount : Nat
deriving DecidableEq, Repr

/-- The in-memory game room (socketHandler.js lines 227-252). -/
structure Room where
  matchId : String
  matchCode : String
  categoryId : String
  categoryName : String
  numberOfQuestions : Nat
  questionTimeLimit : Int
  players : List Player
  questionsData : List Question
  currentQuestionIndex : Nat
  scores : List (String × Nat)
  answers : List (String × AnswerRec)
  state : String
  timerInterval : Option Nat
  gracePeriodTimeout : Option Nat
deriving DecidableEq, Repr

/-! ## Association lists

JavaScript objects and `Map`s keyed by strings, with insertion order
preserved (`set` replaces in place or appends, `delete` removes the entry,
`get` returns the entry or `undefined`). -/

/-- `m.get(k)`. -/
def alistGet {α : Type} : List (String × α) → String → Option α
  | [], _ => none
  | kv :: rest, k => if kv.1 == k then some kv.2 else alistGet rest k

/-- `m.set(k, v)` / `obj[k] = v`: replace in place, else append. -/
def alistSet {α : Type} : List (String × α) → String → α → List (String × α)
  | [], k, v => [(k, v)]
  | kv :: rest, k, v => if kv.1 == k then (k, v) :: rest else kv :: alistSet rest k v

/-- `m.delete(k)`. -/
def alistErase {α : Type} (l : List (String × α)) (k : String) : List (String × α) :=
  l.filter (fun kv => kv.1 != k)

/-! ## Timers and the system state -/

/-- The kinds of `setTimeout` callbacks the handler arms.  `objKey` is the
store key of the `Room` object captured by the closure (closures keep the
object alive and read it directly, not through the registry); `matchId` is
the string the closure captured for registry lookups it performs itself. -/
inductive TimerKind where
  | qDeadline (objKey matchId : String) (questionIndex : Nat)
  | grace (objKey matchId userId : String)
  | startDelay (matchId : String)
  | firstQuestion (matchId : String)
  | endDelay (matchId : String)
deriving DecidableEq, Repr

/-- The whole engine state: the `gameRooms` registry (index + shared object
store), the persisted match collection, and the pending timers. -/
structure Sys where
  index : List (String × String)
  store : List (String × Room)
  matchesDb : List (String × MatchDoc)
  pending : List (Nat × TimerKind)
  nextTid : Nat
deriving DecidableEq, Repr

def Sys.empty : Sys :=
  { index := [], store := [], matchesDb := [], pending := [], nextTid := 0 }

/-- `gameRooms.get(k)`: resolve a registry key to the Room object it
references. -/
def roomsGet (sys : Sys) (k : String) : Option Room :=
  (alistGet sys.index k).bind (fun m => alistGet sys.store m)

/-- `gameRooms.get(k)` returning also the identity (store key) of the
referenced object, so that a mutation can be written back to the shared
object. -/
def roomsGetK (sys : Sys) (k : String) : Option (String × Room) :=
  (alistGet sys.index k).bind (fun m => (alistGet sys.store m).map (fun r => (m, r)))

/-- Mutate the shared Room object at store key `m`. -/
def writeRoom (sys : Sys) (m : String) (r : Room) : Sys :=
  { sys with store := alistSet sys.store m r }

/-! ## Emitted socket events -/

/-- The socket events the engine emits (restricted to the payload fields the
specification talks about). -/
inductive Emission where
  | errorE (code : String)
  | matchCreated (matchId matchCode : String)
  | matchReady (matchId : String)
  | startBattle (matchId : String)
  | questionDisplay (matchId : String) (questionIndex : Nat)
  | answerValidated (userId : String) (questionIndex : Nat) (isCorrect : Bool)
      (correctOptionId : Int) (xpAwarded : Nat) (totalScore : Nat)
  | opponentAnswered (userId : String) (questionIndex : Nat)
  | questionTimeout (matchId : String) (questionIndex : Nat)
  | questionResults (matchId : String) (questionIndex : Nat)
      (correctOptionId : Int) (scores : List (String × Nat))
      (playerAnswers : List (String × AnswerRec))
  | opponentFinishReady (matchId : String)
  | opponentDisconnected (matchId userId : String)
  | opponentReconnected (matchId userId : String)
  | matchStateRestored (matchId : String) (currentQuestionIndex : Nat)
      (currentQuestion : Option Question) (scores : List (String × Nat))
      (state : String)
  | matchEnded (matchId : String) (winnerId : Option String)
      (finalScores : List (String × Nat)) (reason : String)
deriving DecidableEq, Repr

/-- `room.scores[userId] || 0`. -/
def getScore (r : Room) (uid : String) : Nat :=
  (alistGet r.scores uid).getD 0

/-- Score of user `uid` in the Room object stored at key `m` (0 when the
room or the entry is absent). -/
def storeScore (sys : Sys) (m uid : String) : Nat :=
  match alistGet sys.store m with
  | none => 0
  | some r => getScore r uid

/-- `s.toUpperCase()` (over the character list, so that it reduces in the
kernel). -/
def jsToUpper (s : String) : String := String.mk (s.data.map Char.toUpper)

/-- `s.substring(0, n)`. -/
def jsTake (s : String) (n : Nat) : String := String.mk (s.data.take n)

def listStarts : List Char → List Char → Bool
  | [], _ => true
  | _ :: _, [] => false
  | c :: cs, d :: ds => c == d && listStarts cs ds

/-- `s.startsWith(p)`. -/
def jsStarts (s p : String) : Bool := listStarts p.data s.data

/-- JavaScript `x || d` for an optional numeric payload field: both an absent
field and 0 are falsy and fall back to the default. -/
def jsOrI (o : Option Int) (d : Int) : Int :=
  match o with
  | none => d
  | some v => if v == 0 then d else v

/-! ## Match creation (create-match handler, lines 94-290) -/

/-- The `$match` stage of the create-match aggregation (lines 158-163):
category equality and `isActive: { $ne: false }`.  `isApproved` is not part
of the filter. -/
def aggregateFilter (categoryId : String) (q : DbQuestion) : Bool :=
  q.category == categoryId && q.isActive != some false

/-- Characterises the possible outcomes of `$sample { size }` over the
filtered pool: a selection of `min size filtered.length` documents, each
drawn from the filtered pool. -/
def validSample (pool : List DbQuestion) (categoryId : String) (size : Nat)
    (sampled : List DbQuestion) : Bool :=
  sampled.length == min size (pool.filter (aggregateFilter categoryId)).length &&
  sampled.all (fun q => (pool.filter (aggregateFilter categoryId)).contains q)

/-- create-match handler.  `sampled` is the (random) outcome of the `$sample`
aggregation; theorems constrain it with `validSample`.  `newMatchId` is the
id MongoDB assigned to the created Match document. -/
def createMatch (sys : Sys) (cats : List Category)
    (categoryId userId socketId username : String)
    (numberOfQuestions timePerQuestion : Option Int)
    (newMatchId : String) (sampled : List DbQuestion) : Sys × List Emission :=
  let questionsCount := jsOrI numberOfQuestions 5
  let questionTimeLimit := jsOrI timePerQuestion 30
  if questionsCount < 3 ∨ questionsCount > 20 then
    (sys, [.errorE "INVALID_QUESTION_COUNT"])
  else if questionTimeLimit < 15 ∨ questionTimeLimit > 300 then
    (sys, [.errorE "INVALID_TIME_LIMIT"])
  else
    match cats.find? (fun c => c.cid == categoryId) with
    | none => (sys, [.errorE "CATEGORY_NOT_FOUND"])
    | some cat =>
      if sampled.length == 0 then
        (sys, [.errorE "INSUFFICIENT_QUESTIONS"])
      else if sampled.length < questionsCount.toNat then
        (sys, [.errorE "INSUFFICIENT_QUESTIONS"])
      else
        let matchCode := jsToUpper (jsTake newMatchId 12)
        let room : Room :=
          { matchId := newMatchId, matchCode := matchCode,
            categoryId := categoryId, categoryName := cat.name,
            numberOfQuestions := questionsCount.toNat,
            questionTimeLimit := questionTimeLimit,
            players := [{ userId := userId, socketId := socketId,
                          username := username, answered := false,
                          disconnected := false, finishReady := false }],
            questionsData := sampled.map projectQuestion,
            currentQuestionIndex := 0,
            scores := [(userId, 0)],
            answers := [],
            state := "waiting",
            timerInterval := none, gracePeriodTimeout := none }
        ({ sys with
            matchesDb := alistSet sys.matchesDb newMatchId
              { state := "waiting", playerCount := 1 },
            store := alistSet sys.store newMatchId room,
            index := alistSet (alistSet sys.index newMatchId newMatchId)
              matchCode newMatchId },
         [.matchCreated newMatchId matchCode])

/-! ## Room resolution (join-match lookup chain, lines 313-355) -/

/-- The Room objects reachable from the registry, in `Map` insertion order
(`gameRooms.entries()`), with their registry key. -/
def registryEntries (sys : Sys) : List (String × Room) :=
  sys.index.filterMap (fun kv => (alistGet sys.store kv.2).map (fun r => (kv.1, r)))

/-- The join-match room resolution chain: (1) exact match id key,
(2) exact upper-cased code key, (3) scan of all entries for a room whose
stored `matchCode` equals the code, (4) scan for a registry key of which the
code (of length at least 8) is an initial segment.  Returns the resolved
target match id and the Room. -/
def resolveRoom (sys : Sys) (matchId? code? : Option String) :
    Option (String × Room) :=
  let codeU := code?.map (fun c => jsToUpper c)
  let r1 : Option (String × Room) :=
    match matchId? with
    | some m => (roomsGet sys m).map (fun r => (m, r))
    | none => none
  match r1 with
  | some x => some x
  | none =>
    let r2 : Option (String × Room) :=
      match codeU with
      | some c => (roomsGet sys c).map (fun r => (r.matchId, r))
      | none => none
    match r2 with
    | some x => some x
    | none =>
      let r3 : Option (String × Room) :=
        match codeU with
        | some c =>
          ((registryEntries sys).find? (fun kr => kr.2.matchCode == c)).map
            (fun kr => (kr.2.matchId, kr.2))
        | none => none
      match r3 with
      | some x => some x
      | none =>
        match codeU with
        | some c =>
          if c.length >= 8 then
            ((registryEntries sys).find?
                (fun kr => jsStarts (jsToUpper kr.1) c)).map
              (fun kr => (kr.2.matchId, kr.2))
          else none
        | none => none

/-! ## Question results, question delivery -/

/-- displayQuestionResults (lines 910-937): a registry lookup, the
question-results broadcast, then the per-question answer log is cleared
(scores persist).  There is no dedup guard of its own. -/
def displayQuestionResults (sys : Sys) (matchId : String) (questionIndex : Nat) :
    Sys × List Emission :=
  match roomsGetK sys matchId with
  | none => (sys, [])
  | some (m, room) =>
    match room.questionsData.get? questionIndex with
    | none => (sys, [])
    | some q =>
      (writeRoom sys m { room with answers := [] },
       [.questionResults matchId questionIndex q.correctOptionId
          room.scores room.answers])

/-- deliverQuestion (lines 862-905): resets both players' `answered` flag,
broadcasts the question, and arms the single-shot deadline timer.  The
previous `timerInterval` handle is overwritten without `clearTimeout`, so an
earlier armed deadline stays pending. -/
def deliverQuestion (sys : Sys) (matchId : String) (questionIndex : Nat) :
    Sys × List Emission :=
  match roomsGetK sys matchId with
  | none => (sys, [])
  | some (m, room) =>
    match room.questionsData.get? questionIndex with
    | none => (sys, [])
    | some _q =>
      let tid := sys.nextTid
      let room := { room with
        players := room.players.map (fun p => { p with answered := false }),
        timerInterval := some tid }
      let sys := writeRoom sys m room
      ({ sys with
          pending := sys.pending ++ [(tid, .qDeadline m matchId questionIndex)],
          nextTid := tid + 1 },
       [.questionDisplay matchId questionIndex])

/-! ## Match finalization (endMatch, lines 943-1072) -/

/-- Insert into a list sorted by descending score, before any entry of
equal score (one step of the stable comparator sort `(a, b) => b - a`:
ties keep insertion order). -/
def insertDesc (x : String × Nat) : List (String × Nat) → List (String × Nat)
  | [] => [x]
  | y :: ys => if x.2 ≥ y.2 then x :: y :: ys else y :: insertDesc x ys

/-- `Object.entries(finalScores).sort(([,a],[,b]) => b - a)`: a stable sort
by descending score over the entries in insertion order. -/
def sortScoresDesc : List (String × Nat) → List (String × Nat)
  | [] => []
  | x :: xs => insertDesc x (sortScoresDesc xs)

/-- endMatch: winner determination (forfeiter branch or highest score),
persisting `state = finished`, the match-ended broadcast, `clearTimeout` of
the armed handles, and `gameRooms.delete(matchId)` — note that only the
match id key is deleted; the code key entry is not touched. -/
def endMatch (sys : Sys) (matchId : String) (forfeiter : Option String)
    (reason : String) : Sys × List Emission :=
  match roomsGet sys matchId with
  | none => (sys, [])
  | some room =>
    let winnerId : Option String :=
      match forfeiter with
      | some f => (room.players.find? (fun p => p.userId != f)).map
          (fun p => p.userId)
      | none => (sortScoresDesc room.scores).head?.map (fun kv => kv.1)
    let pending := sys.pending.filter (fun t =>
      room.gracePeriodTimeout != some t.1 && room.timerInterval != some t.1)
    ({ sys with
        matchesDb :=
          match alistGet sys.matchesDb matchId with
          | none => sys.matchesDb
          | some doc => alistSet sys.matchesDb matchId { doc with state := "finished" },
        pending := pending,
        index := alistErase sys.index matchId },
     [.matchEnded matchId winnerId room.scores reason])

/-! ## Player-state helpers (JS `players.find(...)` followed by a mutation of
the found object: only the first matching player is updated) -/

def setAnsweredFirst (uid : String) : List Player → List Player
  | [] => []
  | p :: ps =>
    if p.userId == uid then { p with answered := true } :: ps
    else p :: setAnsweredFirst uid ps

def setFinishReadyFirst (uid : String) : List Player → List Player
  | [] => []
  | p :: ps =>
    if p.userId == uid then { p with finishReady := true } :: ps
    else p :: setFinishReadyFirst uid ps

def markReconnectedFirst (uid newSocketId : String) : List Player → List Player
  | [] => []
  | p :: ps =>
    if p.userId == uid then
      { p with disconnected := false, socketId := newSocketId } :: ps
    else p :: markReconnectedFirst uid newSocketId ps

def markDisconnectedFirst (sid : String) : List Player → List Player
  | [] => []
  | p :: ps =>
    if p.socketId == sid then { p with disconnected := true } :: ps
    else p :: markDisconnectedFirst sid ps

/-! ## The remaining event handlers -/

/-- The mutation submit-answer applies to the shared Room object
(lines 489-530): score increased by the awarded XP, answer recorded, and
the submitter's `answered` flag set. -/
def answeredRoom (room : Room) (userId : String) (questionIndex : Nat)
    (selectedOptionId : Int) (question : Question) : Room :=
  { room with
    scores := alistSet room.scores userId
      (getScore room userId +
        (if selectedOptionId == question.correctOptionId then 10 else 0)),
    answers := alistSet room.answers userId
      { questionIndex := questionIndex,
        selectedOptionId := selectedOptionId,
        isCorrect := selectedOptionId == question.correctOptionId,
        xpAwarded := if selectedOptionId == question.correctOptionId then 10 else 0 },
    players := setAnsweredFirst userId room.players }

/-- submit-answer handler (lines 465-568).  The score update is
unconditional: there is no check of the `answered` flag before awarding XP.
The 2-second `setTimeout(endMatch)` after the last question is the
`endDelay` timer. -/
def submitAnswer (sys : Sys) (matchId userId : String) (questionIndex : Nat)
    (selectedOptionId : Int) : Sys × List Emission :=
  match roomsGetK sys matchId with
  | none => (sys, [.errorE "MATCH_NOT_FOUND"])
  | some (m, room0) =>
    match room0.questionsData.get? questionIndex with
    | none => (sys, [.errorE "QUESTION_NOT_FOUND"])
    | some question =>
      let room := answeredRoom room0 userId questionIndex selectedOptionId question
      let sys1 := writeRoom sys m room
      let xpAwarded := if selectedOptionId == question.correctOptionId then 10 else 0
      let ems := [Emission.answerValidated userId questionIndex
                    (selectedOptionId == question.correctOptionId)
                    question.correctOptionId xpAwarded
                    (getScore room0 userId + xpAwarded),
                  Emission.opponentAnswered userId questionIndex]
      if room.players.all (fun p => p.answered) then
        let dr := displayQuestionResults sys1 matchId questionIndex
        if questionIndex + 1 >= room0.questionsData.length then
          ({ dr.1 with
              pending := dr.1.pending ++ [(dr.1.nextTid, .endDelay matchId)],
              nextTid := dr.1.nextTid + 1 },
           ems ++ dr.2)
        else (dr.1, ems ++ dr.2)
      else (sys1, ems)

/-- finish-quiz handler (lines 574-610). -/
def finishQuiz (sys : Sys) (matchId userId : String) : Sys × List Emission :=
  match roomsGetK sys matchId with
  | none => (sys, [.errorE "MATCH_NOT_FOUND"])
  | some (m, room) =>
    let room := { room with players := setFinishReadyFirst userId room.players }
    let sys := writeRoom sys m room
    if room.players.length >= 2 ∧ room.players.all (fun p => p.finishReady) then
      endMatch sys matchId none "Both players finished quiz"
    else (sys, [.opponentFinishReady matchId])

/-- next-question handler (lines 617-650): increments the index, then ends
the match or delivers the next question. -/
def nextQuestion (sys : Sys) (matchId : String) : Sys × List Emission :=
  match roomsGetK sys matchId with
  | none => (sys, [.errorE "MATCH_NOT_FOUND"])
  | some (m, room) =>
    let room := { room with currentQuestionIndex := room.currentQuestionIndex + 1 }
    let sys := writeRoom sys m room
    if room.currentQuestionIndex >= room.questionsData.length then
      endMatch sys matchId none "Match completed"
    else
      deliverQuestion sys matchId room.currentQuestionIndex

/-- forfeit-match handler (lines 690-714): the opponent (first player whose
id differs from the forfeiter) gets the 50-point bonus, then the match is
ended with the caller as forfeiter. -/
def forfeitMatch (sys : Sys) (matchId userId : String) : Sys × List Emission :=
  let sys1 :=
    match roomsGetK sys matchId with
    | none => sys
    | some (m, room) =>
      match room.players.find? (fun p => p.userId != userId) with
      | none => sys
      | some opp =>
        writeRoom sys m { room with
          scores := alistSet room.scores opp.userId (getScore room opp.userId + 50) }
  endMatch sys1 matchId (some userId) "Player forfeited"

/-- reconnect-match handler (lines 720-771).  Succeeds for any supplied
`userId` whenever the room resolves; the restored state includes the current
question snapshot (with its `correctOptionId`). -/
def reconnectMatch (sys : Sys) (matchId userId newSocketId : String) :
    Sys × List Emission :=
  match roomsGetK sys matchId with
  | none => (sys, [.errorE "MATCH_NOT_FOUND"])
  | some (m, room) =>
    let room := { room with
      players := markReconnectedFirst userId newSocketId room.players }
    let sys := writeRoom sys m room
    (sys, [.opponentReconnected matchId userId,
           .matchStateRestored matchId room.currentQuestionIndex
             (room.questionsData.get? room.currentQuestionIndex)
             room.scores room.state])

/-- disconnect handler (lines 777-824): marks the player found by socket id
as disconnected and arms the 30-second grace timer; the timer closure
captures the Room object and the player's user id. -/
def handleDisconnect (sys : Sys) (matchId socketId : String) :
    Sys × List Emission :=
  match roomsGetK sys matchId with
  | none => (sys, [])
  | some (m, room) =>
    match room.players.find? (fun p => p.socketId == socketId) with
    | none => (sys, [])
    | some player =>
      let tid := sys.nextTid
      let room := { room with
        players := markDisconnectedFirst socketId room.players,
        gracePeriodTimeout := some tid }
      let sys := writeRoom sys m room
      ({ sys with
          pending := sys.pending ++ [(tid, .grace m matchId player.userId)],
          nextTid := tid + 1 },
       [.opponentDisconnected matchId player.userId])

/-- startMatch (lines 837-856): marks the room active, broadcasts
start-battle, and (after the 1-second delay, modelled as a timer) delivers
question 0. -/
def startMatch (sys : Sys) (matchId : String) : Sys × List Emission :=
  match roomsGetK sys matchId with
  | none => (sys, [])
  | some (m, room) =>
    let sys := writeRoom sys m { room with state := "active" }
    ({ sys with
        pending := sys.pending ++ [(sys.nextTid, .firstQuestion matchId)],
        nextTid := sys.nextTid + 1 },
     [.startBattle matchId])

/-- join-match handler (lines 297-453): the resolution chain, the state
checks against both the in-memory Room and the persisted Match, the second
player added to both, and the 2-second start delay armed as a timer. -/
def joinMatch (sys : Sys) (matchId? code? : Option String)
    (userId socketId username : String) : Sys × List Emission :=
  if matchId?.isNone && code?.isNone then
    (sys, [.errorE "MATCH_ID_REQUIRED"])
  else
    match resolveRoom sys matchId? code? with
    | none => (sys, [.errorE "MATCH_NOT_FOUND"])
    | some (targetMatchId, room) =>
      if room.state != "waiting" || room.players.length >= 2 then
        (sys, [.errorE "MATCH_UNAVAILABLE"])
      else
        match alistGet sys.matchesDb targetMatchId with
        | none => (sys, [.errorE "MATCH_NOT_FOUND"])
        | some doc =>
          if doc.state != "waiting" || doc.playerCount >= 2 then
            (sys, [.errorE "MATCH_UNAVAILABLE"])
          else
            let room := { room with
              players := room.players ++
                [{ userId := userId, socketId := socketId,
                   username := username, answered := false,
                   disconnected := false, finishReady := false }],
              state := "active" }
            let sys := writeRoom sys room.matchId room
            ({ sys with
                matchesDb := alistSet sys.matchesDb targetMatchId
                  { doc with playerCount := doc.playerCount + 1, state := "active" },
                pending := sys.pending ++ [(sys.nextTid, .startDelay targetMatchId)],
                nextTid := sys.nextTid + 1 },
             [.matchReady targetMatchId])

/-- Fire a pending single-shot timer (its callback is dequeued by the event
loop).  A timer id that is not pending — already fired, or cancelled by
`clearTimeout` in endMatch — does nothing.  The deadline callback re-checks
only `room.currentQuestionIndex === questionIndex` on the captured Room
object; the grace callback re-checks only the `disconnected` flag. -/
def fireTimer (sys : Sys) (tid : Nat) : Sys × List Emission :=
  match sys.pending.find? (fun t => t.1 == tid) with
  | none => (sys, [])
  | some tk =>
    let sys := { sys with pending := sys.pending.filter (fun t => t.1 != tid) }
    match tk.2 with
    | .qDeadline objKey matchId questionIndex =>
      match alistGet sys.store objKey with
      | none => (sys, [])
      | some room =>
        if room.currentQuestionIndex == questionIndex then
          let dr := displayQuestionResults sys matchId questionIndex
          (dr.1, .questionTimeout matchId questionIndex :: dr.2)
        else (sys, [])
    | .grace objKey matchId userId =>
      match alistGet sys.store objKey with
      | none => (sys, [])
      | some room =>
        if room.players.any (fun p => p.userId == userId && p.disconnected) then
          endMatch sys matchId (some userId) "Did not reconnect in time"
        else (sys, [])
    | .startDelay matchId => startMatch sys matchId
    | .firstQuestion matchId => deliverQuestion sys matchId 0
    | .endDelay matchId => endMatch sys matchId none "All questions answered"

/-! ## The event-loop step relation -/

/-- One dequeued event of the single-threaded event loop. -/
inductive Event where
  | createEv (cats : List Category) (categoryId userId socketId username : String)
      (numberOfQuestions timePerQuestion : Option Int)
      (newMatchId : String) (sampled : List DbQuestion)
  | joinEv (matchId? code? : Option String) (userId socketId username : String)
  | submitEv (matchId userId : String) (questionIndex : Nat)
      (selectedOptionId : Int)
  | nextQEv (matchId : String)
  | finishEv (matchId userId : String)
  | forfeitEv (matchId userId : String)
  | reconnectEv (matchId userId newSocketId : String)
  | disconnectEv (matchId socketId : String)
  | fireEv (tid : Nat)
deriving DecidableEq, Repr

def step (sys : Sys) : Event → Sys × List Emission
  | .createEv cats catId uid sid un nQ tQ mid sampled =>
    createMatch sys cats catId uid sid un nQ tQ mid sampled
  | .joinEv mid? code? uid sid un => joinMatch sys mid? code? uid sid un
  | .submitEv mid uid qi sel => submitAnswer sys mid uid qi sel
  | .nextQEv mid => nextQuestion sys mid
  | .finishEv mid uid => finishQuiz sys mid uid
  | .forfeitEv mid uid => forfeitMatch sys mid uid
  | .reconnectEv mid uid nsid => reconnectMatch sys mid uid nsid
  | .disconnectEv mid sid => handleDisconnect sys mid sid
  | .fireEv tid => fireTimer sys tid

/-- Run a sequence of events, accumulating the emissions in order. -/
def runEvents (sys : Sys) : List Event → Sys × List Emission
  | [] => (sys, [])
  | e :: es =>
    let se := step sys e
    let rest := runEvents se.1 es
    (rest.1, se.2 ++ rest.2)

/-- Number of question-results broadcasts for a given match id and question
index in a list of emissions. -/
def countQR (matchId : String) (questionIndex : Nat) (ems : List Emission) : Nat :=
  ems.countP (fun e =>
    match e with
    | .questionResults m j _ _ _ => m == matchId && j == questionIndex
    | _ => false)

/-- Number of match-ended broadcasts for a given match id. -/
def countEnded (matchId : String) (ems : List Emission) : Nat :=
  ems.countP (fun e =>
    match e with
    | .matchEnded m _ _ _ => m == matchId
    | _ => false)

/-! ## Concrete fixtures (used by counterexamples and witnesses) -/

/-- A sample category. -/
def catGeneral : Category := { cid := "cat1", name := "General" }

/-- Approved, active sample question `n` of category `cat1`; the correct
option is 1. -/
def sampleQ (n : Nat) : DbQuestion :=
  { qid := toString n, text := "sample question number " ++ toString n,
    options := [{ id := 1, text := "A" }, { id := 2, text := "B" }],
    correctOptionId := 1, difficulty := "easy", category := "cat1",
    isApproved := true, isActive := some true }

/-- An active but *unapproved* question (`isApproved = false`, the schema
default) of category `cat1`. -/
def unapprovedQ (n : Nat) : DbQuestion :=
  { sampleQ n with isApproved := false }

/-- A 24-character match id as MongoDB would assign. -/
def midA : String := "aaaabbbbccccdddd00001111"

/-- Its join code: the first 12 characters, upper-cased. -/
def codeA : String := "AAAABBBBCCCC"

/-- A full two-player run: create, join, the start timers, both players
answering question 0 correctly, and then the question-0 deadline timer
firing (with the current question index still 0). -/
def traceC1 : List Event :=
  [ .createEv [catGeneral] "cat1" "alice" "sockA" "Alice" (some 3) (some 30)
      midA [sampleQ 1, sampleQ 2, sampleQ 3],
    .joinEv (some midA) none "bob" "sockB" "Bob",
    .fireEv 0,
    .fireEv 1,
    .submitEv midA "alice" 0 1,
    .submitEv midA "bob" 0 1,
    .fireEv 2 ]

/-- The state just before the deadline timer fires in `traceC1`. -/
def sysC1 : Sys := (runEvents Sys.empty (traceC1.take 6)).1

/-- The state after create and join of `traceC1` (start delay pending). -/
def sysAfterJoin : Sys := (runEvents Sys.empty (traceC1.take 2)).1

/-- A concrete well-formed two-player room used to instantiate theorems. -/
def playerAlice : Player :=
  { userId := "alice", socketId := "sockA", username := "Alice",
    answered := false, disconnected := false, finishReady := false }

def playerBob : Player :=
  { userId := "bob", socketId := "sockB", username := "Bob",
    answered := false, disconnected := false, finishReady := false }

/-- The Room-snapshot versions of the sample questions. -/
def snapQ (n : Nat) : Question := projectQuestion (sampleQ n)

def roomW : Room :=
  { matchId := "m1", matchCode := "M1", categoryId := "cat1",
    categoryName := "General", numberOfQuestions := 3,
    questionTimeLimit := 30, players := [playerAlice, playerBob],
    questionsData := [snapQ 1, snapQ 2, snapQ 3],
    currentQuestionIndex := 0, scores := [("alice", 0)], answers := [],
    state := "active", timerInterval := some 2, gracePeriodTimeout := none }

def sysW : Sys :=
  { index := [("m1", "m1"), ("M1", "m1")], store := [("m1", roomW)],
    matchesDb := [("m1", { state := "active", playerCount := 2 })],
    pending := [(2, .qDeadline "m1" "m1" 0)], nextTid := 3 }

/-! ## Claim propositions quoted as stated -/

/-- Claim C1 as stated: over every run, at most one question-results
broadcast is emitted per match id and question index. -/
def claimC1Prop : Prop :=
  ∀ (sys : Sys) (events : List Event) (matchId : String) (i : Nat),
    countQR matchId i (runEvents sys events).2 ≤ 1

/-- Claim C2 as stated: at most one Room resolves per registry key, and
after finalize of a resolvable match, neither its match id nor its join
code resolves any Room. -/
def claimC2Prop : Prop :=
  (∀ (sys : Sys) (k : String) (r1 r2 : Room),
    roomsGet sys k = some r1 → roomsGet sys k = some r2 → r1 = r2) ∧
  ∀ (sys : Sys) (mid m : String) (r : Room) (reason : String),
    roomsGetK sys mid = some (m, r) →
    roomsGet (endMatch sys mid none reason).1 mid = none ∧
    roomsGet (endMatch sys mid none reason).1 r.matchCode = none

/-- The state right after a successful create: both the id key and the code
key are registered. -/
def sysCreated : Sys :=
  (createMatch Sys.empty [catGeneral] "cat1" "alice" "sockA" "Alice"
    (some 3) (some 30) midA [sampleQ 1, sampleQ 2, sampleQ 3]).1

/-- The Room that create registers in `sysCreated`. -/
def roomA : Room :=
  { matchId := midA, matchCode := codeA, categoryId := "cat1",
    categoryName := "General", numberOfQuestions := 3,
    questionTimeLimit := 30,
    players := [{ userId := "alice", socketId := "sockA", username := "Alice",
                  answered := false, disconnected := false,
                  finishReady := false }],
    questionsData := [projectQuestion (sampleQ 1), projectQuestion (sampleQ 2),
                      projectQuestion (sampleQ 3)],
    currentQuestionIndex := 0, scores := [("alice", 0)], answers := [],
    state := "waiting", timerInterval := none, gracePeriodTimeout := none }

/-- Claim C5 as stated: a successful create-match samples only questions
that are both active and approved. -/
def claimC5Prop : Prop :=
  ∀ (sys : Sys) (cats : List Category) (catId uid sid un : String)
    (nQ tQ : Option Int) (mid : String) (pool sampled : List DbQuestion),
    validSample pool catId (jsOrI nQ 5).toNat sampled = true →
    (∃ code, (createMatch sys cats catId uid sid un nQ tQ mid sampled).2 =
      [.matchCreated mid code]) →
    ∀ q ∈ sampled, q.isApproved = true ∧ q.isActive ≠ some false

/-! # Theorems -/

/-! ## Association-list lemmas -/

theorem alistGet_set {α : Type} (l : List (String × α)) (k k' : String) (v : α) :
    alistGet (alistSet l k v) k' = if k = k' then some v else alistGet l k' := by
  induction l with
  | nil =>
    by_cases h : k = k' <;> simp [alistSet, alistGet, h]
  | cons kv rest ih =>
    simp only [alistSet]
    by_cases h2 : k = k'
    · subst h2
      by_cases h1 : kv.1 = k <;>
        simp_all [alistGet, beq_iff_eq]
    · by_cases h1 : kv.1 = k <;> by_cases h3 : kv.1 = k' <;>
        simp_all [alistGet, beq_iff_eq]

theorem alistGet_erase {α : Type} (l : List (String × α)) (k k' : String) :
    alistGet (alistErase l k) k' = if k = k' then none else alistGet l k' := by
  induction l with
  | nil => by_cases h : k = k' <;> simp [alistErase, alistGet, h]
  | cons kv rest ih =>
    by_cases h2 : k = k'
    · subst h2
      by_cases h1 : kv.1 = k <;>
        simp_all [alistErase, alistGet, List.filter_cons, bne_iff_ne, beq_iff_eq]
    · by_cases h1 : kv.1 = k <;> by_cases h3 : kv.1 = k' <;>
        simp_all [alistErase, alistGet, List.filter_cons, bne_iff_ne, beq_iff_eq]

/-- Decompose a successful registry lookup. -/
theorem roomsGetK_some {sys : Sys} {k m : String} {r : Room}
    (h : roomsGetK sys k = some (m, r)) :
    alistGet sys.index k = some m ∧ alistGet sys.store m = some r := by
  unfold roomsGetK at h
  cases hi : alistGet sys.index k with
  | none => simp [hi] at h
  | some m0 =>
    cases hs : alistGet sys.store m0 with
    | none => simp [hi, hs] at h
    | some r0 =>
      simp only [hi, hs, Option.some_bind, Option.map_some', Option.some_inj,
        Prod.mk.injEq] at h
      obtain ⟨hm, hr⟩ := h
      subst hm; subst hr
      exact ⟨rfl, hs⟩

theorem roomsGetK_mk {sys : Sys} {k m : String} {r : Room}
    (h1 : alistGet sys.index k = some m) (h2 : alistGet sys.store m = some r) :
    roomsGetK sys k = some (m, r) := by
  simp [roomsGetK, h1, h2]

theorem roomsGet_of_getK {sys : Sys} {k m : String} {r : Room}
    (h : roomsGetK sys k = some (m, r)) : roomsGet sys k = some r := by
  obtain ⟨h1, h2⟩ := roomsGetK_some h
  simp [roomsGet, h1, h2]

/-- A failing registry lookup also fails with the identity-aware variant. -/
theorem roomsGetK_none {sys : Sys} {k : String} (h : roomsGet sys k = none) :
    roomsGetK sys k = none := by
  unfold roomsGet at h
  unfold roomsGetK
  cases hi : alistGet sys.index k with
  | none => rfl
  | some m0 =>
    rw [hi] at h
    simp only [Option.some_bind] at h
    simp [h]

/-- After writing the shared object at `m`, a key indexing `m` resolves to
the written room. -/
theorem roomsGetK_write {sys : Sys} {k m : String} (r' : Room)
    (h1 : alistGet sys.index k = some m) :
    roomsGetK (writeRoom sys m r') k = some (m, r') := by
  simp [roomsGetK, writeRoom, h1, alistGet_set]

/-! ## Handler effect lemmas -/

/-- Exact effect of displayQuestionResults when the room resolves and the
question exists. -/
theorem display_spec (sys : Sys) (mid : String) (qi : Nat) (m : String)
    (r : Room) (q : Question)
    (h : roomsGetK sys mid = some (m, r))
    (hq : r.questionsData.get? qi = some q) :
    displayQuestionResults sys mid qi =
      (writeRoom sys m { r with answers := [] },
       [.questionResults mid qi q.correctOptionId r.scores r.answers]) := by
  unfold displayQuestionResults
  rw [h]
  dsimp only
  rw [hq]

/-- Exact effect of submit-answer on the shared Room when the question index
is in range: the room stays resolvable, the question list is unchanged, the
submitter's score entry is set to its old value plus the awarded XP, and the
first emission is the answer-validated feedback carrying that XP. -/
theorem submit_spec (sys : Sys) (mid uid : String) (qi : Nat) (sel : Int)
    (m : String) (r : Room) (q : Question)
    (h : roomsGetK sys mid = some (m, r))
    (hq : r.questionsData.get? qi = some q) :
    ∃ r', roomsGetK (submitAnswer sys mid uid qi sel).1 mid = some (m, r') ∧
      r'.questionsData = r.questionsData ∧
      r'.scores = alistSet r.scores uid
        (getScore r uid + (if sel == q.correctOptionId then 10 else 0)) ∧
      (submitAnswer sys mid uid qi sel).2.head? =
        some (.answerValidated uid qi (sel == q.correctOptionId)
          q.correctOptionId (if sel == q.correctOptionId then 10 else 0)
          (getScore r uid + (if sel == q.correctOptionId then 10 else 0))) := by
  obtain ⟨h1, h2⟩ := roomsGetK_some h
  have hk1 : roomsGetK (writeRoom sys m (answeredRoom r uid qi sel q)) mid =
      some (m, answeredRoom r uid qi sel q) :=
    roomsGetK_write _ h1
  have hq1 : (answeredRoom r uid qi sel q).questionsData.get? qi = some q := hq
  unfold submitAnswer
  rw [h]
  dsimp only
  rw [hq]
  dsimp only
  by_cases hall : ((answeredRoom r uid qi sel q).players.all fun p => p.answered) = true
  · rw [if_pos hall, display_spec _ mid qi m _ q hk1 hq1]
    dsimp only
    by_cases hlast : qi + 1 ≥ r.questionsData.length
    · rw [if_pos hlast]
      refine ⟨{ answeredRoom r uid qi sel q with answers := [] },
        roomsGetK_mk h1 ?_, rfl, rfl, rfl⟩
      simp [writeRoom, alistGet_set]
    · rw [if_neg hlast]
      refine ⟨{ answeredRoom r uid qi sel q with answers := [] },
        roomsGetK_mk h1 ?_, rfl, rfl, rfl⟩
      simp [writeRoom, alistGet_set]
  · rw [if_neg hall]
    exact ⟨answeredRoom r uid qi sel q, hk1, rfl, rfl, rfl⟩

/-! ## C3: submit-answer validation and scoring -/

/-- **C3.** For every submit-answer call on an existing room: an
out-of-range question index fails with QUESTION_NOT_FOUND and changes
nothing (so nothing is awarded); an in-range index awards 10 XP exactly
when `selectedOptionId` equals the stored `correctOptionId` (else 0),
reports that amount in the answer-validated feedback, and adds it to the
submitter's running score. -/
theorem C3_submit_scoring (sys : Sys) (mid uid : String) (qi : Nat)
    (sel : Int) (m : String) (r : Room)
    (h : roomsGetK sys mid = some (m, r)) :
    (r.questionsData.get? qi = none →
      submitAnswer sys mid uid qi sel = (sys, [.errorE "QUESTION_NOT_FOUND"])) ∧
    (∀ q, r.questionsData.get? qi = some q →
      storeScore (submitAnswer sys mid uid qi sel).1 m uid =
        getScore r uid + (if sel = q.correctOptionId then 10 else 0) ∧
      (submitAnswer sys mid uid qi sel).2.head? =
        some (.answerValidated uid qi (sel == q.correctOptionId)
          q.correctOptionId (if sel = q.correctOptionId then 10 else 0)
          (getScore r uid + (if sel = q.correctOptionId then 10 else 0)))) := by
  constructor
  · intro hq
    unfold submitAnswer
    rw [h]
    dsimp only
    rw [hq]
  · intro q hq
    obtain ⟨r', hk, _hqd, hsc, hhead⟩ := submit_spec sys mid uid qi sel m r q h hq
    obtain ⟨_h1, h2⟩ := roomsGetK_some hk
    constructor
    · have hss : storeScore (submitAnswer sys mid uid qi sel).1 m uid =
          getScore r' uid := by
        unfold storeScore
        rw [h2]
      rw [hss, getScore, hsc, alistGet_set]
      by_cases hc : sel = q.correctOptionId <;> simp [hc, getScore]
    · rw [hhead]
      by_cases hc : sel = q.correctOptionId <;> simp [hc]

/-- Witness for C3 at a concrete room: question 5 is out of range, and for
question 0 a correct answer adds 10 while a wrong answer adds 0. -/
theorem C3_submit_scoring_witness :
    roomsGetK sysW "m1" = some ("m1", roomW) ∧
    roomW.questionsData.get? 5 = none ∧
    submitAnswer sysW "m1" "alice" 5 1 =
      (sysW, [.errorE "QUESTION_NOT_FOUND"]) ∧
    storeScore (submitAnswer sysW "m1" "alice" 0 1).1 "m1" "alice" = 10 ∧
    storeScore (submitAnswer sysW "m1" "alice" 0 2).1 "m1" "alice" = 0 := by
  have h : roomsGetK sysW "m1" = some ("m1", roomW) := by decide
  refine ⟨h, by decide, ?_, ?_, ?_⟩
  · exact (C3_submit_scoring sysW "m1" "alice" 5 1 "m1" roomW h).1 (by decide)
  · have := ((C3_submit_scoring sysW "m1" "alice" 0 1 "m1" roomW h).2
      (snapQ 1) (by decide)).1
    rw [this]; decide
  · have := ((C3_submit_scoring sysW "m1" "alice" 0 2 "m1" roomW h).2
      (snapQ 1) (by decide)).1
    rw [this]; decide

/-! ## C4: create-match bounds validation -/

/-- **C4.** For every create-match request: an effective question count
outside [3, 20] fails with INVALID_QUESTION_COUNT, an effective time limit
outside [15, 300] fails with INVALID_TIME_LIMIT, and in both cases the
state is returned unchanged — no Room is registered and no Match document
is created. -/
theorem C4_create_validation (sys : Sys) (cats : List Category)
    (catId uid sid un : String) (nQ tQ : Option Int) (mid : String)
    (sampled : List DbQuestion) :
    ((jsOrI nQ 5 < 3 ∨ jsOrI nQ 5 > 20) →
      createMatch sys cats catId uid sid un nQ tQ mid sampled =
        (sys, [.errorE "INVALID_QUESTION_COUNT"])) ∧
    (3 ≤ jsOrI nQ 5 → jsOrI nQ 5 ≤ 20 →
      (jsOrI tQ 30 < 15 ∨ jsOrI tQ 30 > 300) →
      createMatch sys cats catId uid sid un nQ tQ mid sampled =
        (sys, [.errorE "INVALID_TIME_LIMIT"])) := by
  constructor
  · intro hbad
    unfold createMatch
    rw [if_pos hbad]
  · intro hlo hhi hbad
    unfold createMatch
    rw [if_neg (by push_neg; omega), if_pos hbad]

/-- Witness for C4: question count 2 is rejected, and with a valid count of
5 a time limit of 10 seconds is rejected; the state is unchanged in both
cases. -/
theorem C4_create_validation_witness :
    createMatch sysW [catGeneral] "cat1" "carol" "sockC" "Carol"
      (some 2) (some 30) "ffff0000ffff0000ffff0000" [] =
      (sysW, [.errorE "INVALID_QUESTION_COUNT"]) ∧
    createMatch sysW [catGeneral] "cat1" "carol" "sockC" "Carol"
      (some 5) (some 10) "ffff0000ffff0000ffff0000" [] =
      (sysW, [.errorE "INVALID_TIME_LIMIT"]) :=
  ⟨(C4_create_validation sysW [catGeneral] "cat1" "carol" "sockC" "Carol"
      (some 2) (some 30) "ffff0000ffff0000ffff0000" []).1 (by decide),
   (C4_create_validation sysW [catGeneral] "cat1" "carol" "sockC" "Carol"
      (some 5) (some 10) "ffff0000ffff0000ffff0000" []).2
     (by decide) (by decide) (by decide)⟩

/-! ## C9: submit-answer is not idempotent -/

/-- **C9.** Submit-answer deduplicates nothing: for an existing room and an
in-range question index, two submissions of the correct option by the same
player for the same index add 20 in total to that player's running score
(the `answered` flag never blocks a re-submission). -/
theorem C9_submit_not_idempotent (sys : Sys) (mid uid : String) (qi : Nat)
    (m : String) (r : Room) (q : Question)
    (h : roomsGetK sys mid = some (m, r))
    (hq : r.questionsData.get? qi = some q) :
    storeScore (runEvents sys [.submitEv mid uid qi q.correctOptionId,
        .submitEv mid uid qi q.correctOptionId]).1 m uid =
      getScore r uid + 20 := by
  obtain ⟨r1, hk1, hqd1, hsc1, _⟩ :=
    submit_spec sys mid uid qi q.correctOptionId m r q h hq
  have hq1 : r1.questionsData.get? qi = some q := by rw [hqd1]; exact hq
  obtain ⟨r2, hk2, _hqd2, hsc2, _⟩ :=
    submit_spec (submitAnswer sys mid uid qi q.correctOptionId).1 mid uid qi
      q.correctOptionId m r1 q hk1 hq1
  have e1 : getScore r1 uid = getScore r uid + 10 := by
    unfold getScore
    rw [hsc1, alistGet_set, if_pos rfl]
    simp [getScore]
  have e2 : getScore r2 uid = getScore r1 uid + 10 := by
    unfold getScore
    rw [hsc2, alistGet_set, if_pos rfl]
    simp [getScore]
  have hfinal : (runEvents sys [.submitEv mid uid qi q.correctOptionId,
      .submitEv mid uid qi q.correctOptionId]).1 =
      (submitAnswer (submitAnswer sys mid uid qi q.correctOptionId).1 mid uid
        qi q.correctOptionId).1 := by
    simp [runEvents, step]
  obtain ⟨_, hst⟩ := roomsGetK_some hk2
  rw [hfinal]
  unfold storeScore
  rw [hst]
  dsimp only
  rw [e2, e1]

/-- Witness for C9: in the concrete room, Alice submitting the correct
option of question 0 twice ends with a score of 20. -/
theorem C9_submit_not_idempotent_witness :
    roomsGetK sysW "m1" = some ("m1", roomW) ∧
    roomW.questionsData.get? 0 = some (snapQ 1) ∧
    storeScore (runEvents sysW [.submitEv "m1" "alice" 0 (snapQ 1).correctOptionId,
        .submitEv "m1" "alice" 0 (snapQ 1).correctOptionId]).1 "m1" "alice" = 20 := by
  have h1 : roomsGetK sysW "m1" = some ("m1", roomW) := by decide
  have h2 : roomW.questionsData.get? 0 = some (snapQ 1) := by decide
  refine ⟨h1, h2, ?_⟩
  have := C9_submit_not_idempotent sysW "m1" "alice" 0 "m1" roomW (snapQ 1) h1 h2
  rw [this]
  decide

/-! ## C10: reconnect-match resolution and unconditional success -/

/-- Finding by user id in a list whose first `uid`-player was just marked
reconnected yields a player with a cleared `disconnected` flag. -/
theorem markReconnectedFirst_find (uid nsid : String) (ps : List Player)
    (p' : Player)
    (h : (markReconnectedFirst uid nsid ps).find? (fun p => p.userId == uid) =
      some p') :
    p'.disconnected = false := by
  induction ps with
  | nil => simp [markReconnectedFirst, List.find?] at h
  | cons p ps ih =>
    by_cases hp : p.userId = uid
    · simp [markReconnectedFirst, hp, List.find?] at h
      rw [← h]
    · have hcond : (p.userId == uid) = false := by simp [hp]
      simp only [markReconnectedFirst, hcond, Bool.false_eq_true, if_false] at h
      rw [List.find?_cons_of_neg _ (by simp [hp])] at h
      exact ih h

/-- **C10.** reconnect-match fails with MATCH_NOT_FOUND exactly when no
room resolves for the supplied match id; whenever a room resolves the call
succeeds for any supplied user id — there is no check that the user is a
participant or was marked disconnected — the first player with that user id
(if any) has the disconnected flag cleared, and the full room state is
replayed to the caller, including the current question snapshot together
with its correctOptionId. -/
theorem C10_reconnect (sys : Sys) (mid uid nsid : String) :
    (roomsGet sys mid = none →
      reconnectMatch sys mid uid nsid = (sys, [.errorE "MATCH_NOT_FOUND"])) ∧
    (∀ m r, roomsGetK sys mid = some (m, r) →
      (reconnectMatch sys mid uid nsid).2 =
        [.opponentReconnected mid uid,
         .matchStateRestored mid r.currentQuestionIndex
           (r.questionsData.get? r.currentQuestionIndex) r.scores r.state] ∧
      roomsGet (reconnectMatch sys mid uid nsid).1 mid =
        some { r with players := markReconnectedFirst uid nsid r.players } ∧
      (∀ p', (markReconnectedFirst uid nsid r.players).find?
          (fun p => p.userId == uid) = some p' → p'.disconnected = false)) := by
  constructor
  · intro hnone
    unfold reconnectMatch
    rw [roomsGetK_none hnone]
  · intro m r h
    obtain ⟨h1, _h2⟩ := roomsGetK_some h
    refine ⟨?_, ?_, fun p' hp => markReconnectedFirst_find uid nsid r.players p' hp⟩
    · unfold reconnectMatch
      rw [h]
    · unfold reconnectMatch
      rw [h]
      dsimp only
      unfold roomsGet writeRoom
      rw [h1]
      simp [alistGet_set]

/-- Witness for C10: an unknown id fails; on the concrete room the call
succeeds for the non-participant user id "mallory" and replays the current
question with its correct option id. -/
theorem C10_reconnect_witness :
    reconnectMatch sysW "nosuch" "mallory" "sockM" =
      (sysW, [.errorE "MATCH_NOT_FOUND"]) ∧
    (reconnectMatch sysW "m1" "mallory" "sockM").2 =
      [.opponentReconnected "m1" "mallory",
       .matchStateRestored "m1" 0 (some (snapQ 1)) [("alice", 0)] "active"] := by
  constructor
  · exact (C10_reconnect sysW "nosuch" "mallory" "sockM").1 (by decide)
  · have := ((C10_reconnect sysW "m1" "mallory" "sockM").2 "m1" roomW
      (by decide)).1
    rw [this]
    decide

/-! ## C7: forfeiture -/

/-- **C7.** For a forfeit-match call by either player of a two-player room,
the match is finalized immediately: the single match-ended broadcast names
the non-forfeiting player as the winner and carries final scores in which
exactly 50 bonus points have been added to the non-forfeiting player's
score. -/
theorem C7_forfeit (sys : Sys) (mid m : String) (r : Room) (p1 p2 : Player)
    (h : roomsGetK sys mid = some (m, r))
    (hps : r.players = [p1, p2])
    (hne : p1.userId ≠ p2.userId) :
    (forfeitMatch sys mid p2.userId).2 =
      [.matchEnded mid (some p1.userId)
        (alistSet r.scores p1.userId (getScore r p1.userId + 50))
        "Player forfeited"] ∧
    (forfeitMatch sys mid p1.userId).2 =
      [.matchEnded mid (some p2.userId)
        (alistSet r.scores p2.userId (getScore r p2.userId + 50))
        "Player forfeited"] := by
  obtain ⟨h1, _h2⟩ := roomsGetK_some h
  have hb12 : (p1.userId != p2.userId) = true := by simp [bne_iff_ne, hne]
  have hb21 : (p2.userId != p1.userId) = true := by
    simp only [bne_iff_ne, ne_eq, decide_eq_true_eq]
    exact fun e => hne e.symm
  have hb11 : (p1.userId != p1.userId) = false := by simp
  constructor
  · have hfind : r.players.find? (fun p => p.userId != p2.userId) = some p1 := by
      rw [hps]
      simp [List.find?, hb12]
    unfold forfeitMatch
    rw [h]
    dsimp only
    rw [hfind]
    dsimp only
    unfold endMatch
    have hg : roomsGet (writeRoom sys m { r with scores := alistSet r.scores p1.userId (getScore r p1.userId + 50) }) mid = some { r with scores := alistSet r.scores p1.userId (getScore r p1.userId + 50) } := by
      unfold roomsGet writeRoom
      rw [h1]
      simp [alistGet_set]
    rw [hg]
    dsimp only
    rw [hps]
    simp [List.find?, hb12]
  · have hfind : r.players.find? (fun p => p.userId != p1.userId) = some p2 := by
      rw [hps]
      simp [List.find?, hb11, hb21]
    unfold forfeitMatch
    rw [h]
    dsimp only
    rw [hfind]
    dsimp only
    unfold endMatch
    have hg : roomsGet (writeRoom sys m { r with scores := alistSet r.scores p2.userId (getScore r p2.userId + 50) }) mid = some { r with scores := alistSet r.scores p2.userId (getScore r p2.userId + 50) } := by
      unfold roomsGet writeRoom
      rw [h1]
      simp [alistGet_set]
    rw [hg]
    dsimp only
    rw [hps]
    simp [List.find?, hb11, hb21]

/-- Witness for C7: on the concrete room, Bob forfeiting ends the match at
once with Alice the winner and her score increased by exactly 50. -/
theorem C7_forfeit_witness :
    (forfeitMatch sysW "m1" playerBob.userId).2 =
      [.matchEnded "m1" (some "alice") [("alice", 50)] "Player forfeited"] := by
  have := (C7_forfeit sysW "m1" "m1" roomW playerAlice playerBob
    (by decide) rfl (by decide)).1
  rw [this]
  decide

/-! ## C2: registry resolution after finalize (corrected) -/

/-- **C2 (counterexample).** The claim as stated is false: after endMatch
only the match id key is deleted; the join code key still resolves the
Room.  Concretely, create registers `midA` and `codeA`, endMatch deletes
`midA`, and a lookup of `roomA.matchCode = codeA` still succeeds. -/
theorem C2_counterexample : ¬ claimC2Prop := by
  intro hclaim
  have h := hclaim.2 sysCreated midA midA roomA "Match completed" (by decide)
  exact absurd h.2 (by decide)

/-- **C2 (amended).** At most one Room resolves per registry key (lookup is
functional), and after finalize the match id key no longer resolves — but
the join code key, which endMatch never deletes, still resolves the Room
object. -/
theorem C2_amended (sys : Sys) (mid code m : String) (r : Room)
    (reason : String)
    (h1 : alistGet sys.index mid = some m)
    (h2 : alistGet sys.store m = some r)
    (h3 : alistGet sys.index code = some m)
    (hne : code ≠ mid) :
    (∀ k r1 r2, roomsGet sys k = some r1 → roomsGet sys k = some r2 →
      r1 = r2) ∧
    roomsGet (endMatch sys mid none reason).1 mid = none ∧
    roomsGet (endMatch sys mid none reason).1 code = some r := by
  have hroom : roomsGet sys mid = some r := by
    unfold roomsGet
    rw [h1]
    simp [h2]
  refine ⟨fun k r1 r2 e1 e2 => by rw [e1] at e2; exact Option.some_inj.mp e2,
    ?_, ?_⟩
  · unfold endMatch
    rw [hroom]
    unfold roomsGet
    dsimp only
    rw [alistGet_erase]
    simp
  · unfold endMatch
    rw [hroom]
    unfold roomsGet
    dsimp only
    rw [alistGet_erase, if_neg (fun e => hne e.symm), h3]
    simp [h2]

/-- Witness for the amended C2 on the concrete created state: the id key
stops resolving while the code key still yields the Room. -/
theorem C2_amended_witness :
    roomsGet (endMatch sysCreated midA none "Match completed").1 midA = none ∧
    roomsGet (endMatch sysCreated midA none "Match completed").1 codeA =
      some roomA :=
  ⟨(C2_amended sysCreated midA codeA midA roomA "Match completed"
      (by decide) (by decide) (by decide) (by decide)).2.1,
   (C2_amended sysCreated midA codeA midA roomA "Match completed"
      (by decide) (by decide) (by decide) (by decide)).2.2⟩

/-! ## C5: sampling filter (corrected) -/

/-- **C5 (counterexample).** The claim as stated is false: the aggregation
filter is only `isActive ≠ false`; `isApproved` is never checked.  A pool
of three active but unapproved questions is sampled successfully, so the
created Room holds questions that are not approved. -/
theorem C5_counterexample : ¬ claimC5Prop := by
  intro hclaim
  have h := hclaim Sys.empty [catGeneral] "cat1" "alice" "sockA" "Alice"
    (some 3) (some 30) midA [unapprovedQ 1, unapprovedQ 2, unapprovedQ 3]
    [unapprovedQ 1, unapprovedQ 2, unapprovedQ 3]
    (by decide) ⟨codeA, by decide⟩ (unapprovedQ 1) (by simp)
  exact absurd h.1 (by decide)

/-- **C5 (amended).** With valid bounds and an existing category the engine
samples only questions of the category whose `isActive` is not `false` —
approval is not part of the filter.  If fewer such questions exist than the
effective count, the request fails with INSUFFICIENT_QUESTIONS and the
state is unchanged; otherwise the created Room holds exactly
`questionCount` snapshots, the projections of the sampled documents. -/
theorem C5_amended (sys : Sys) (cats : List Category) (cat : Category)
    (catId uid sid un : String) (nQ tQ : Option Int) (mid : String)
    (pool sampled : List DbQuestion)
    (hcat : cats.find? (fun c => c.cid == catId) = some cat)
    (hlo : 3 ≤ jsOrI nQ 5) (hhi : jsOrI nQ 5 ≤ 20)
    (htlo : 15 ≤ jsOrI tQ 30) (hthi : jsOrI tQ 30 ≤ 300)
    (hvs : validSample pool catId (jsOrI nQ 5).toNat sampled = true) :
    (∀ q ∈ sampled, aggregateFilter catId q = true) ∧
    ((pool.filter (aggregateFilter catId)).length < (jsOrI nQ 5).toNat →
      createMatch sys cats catId uid sid un nQ tQ mid sampled =
        (sys, [.errorE "INSUFFICIENT_QUESTIONS"])) ∧
    ((jsOrI nQ 5).toNat ≤ (pool.filter (aggregateFilter catId)).length →
      ∃ r, roomsGet (createMatch sys cats catId uid sid un nQ tQ
          mid sampled).1 mid = some r ∧
        r.questionsData = sampled.map projectQuestion ∧
        r.questionsData.length = (jsOrI nQ 5).toNat) := by
  have hvs' : sampled.length =
      min (jsOrI nQ 5).toNat (pool.filter (aggregateFilter catId)).length ∧
      ∀ q ∈ sampled, q ∈ pool.filter (aggregateFilter catId) := by
    unfold validSample at hvs
    simp only [Bool.and_eq_true, beq_iff_eq, List.all_eq_true] at hvs
    exact ⟨hvs.1, fun q hq => List.elem_iff.mp (hvs.2 q hq)⟩
  refine ⟨fun q hq => (List.mem_filter.mp (hvs'.2 q hq)).2, ?_, ?_⟩
  · intro hlt
    have hlen : sampled.length =
        (pool.filter (aggregateFilter catId)).length := by
      rw [hvs'.1]
      omega
    unfold createMatch
    rw [if_neg (by omega), if_neg (by omega), hcat]
    dsimp only
    by_cases hz : (sampled.length == 0) = true
    · rw [if_pos hz]
    · rw [if_neg hz, if_pos (by omega)]
  · intro hge
    have hlen : sampled.length = (jsOrI nQ 5).toNat := by
      rw [hvs'.1]
      omega
    have hk3 : 3 ≤ (jsOrI nQ 5).toNat := by omega
    unfold createMatch
    rw [if_neg (by omega), if_neg (by omega), hcat]
    dsimp only
    have hz : ¬ ((sampled.length == 0) = true) := by
      simp only [beq_iff_eq]
      omega
    have hlt2 : ¬ (sampled.length < (jsOrI nQ 5).toNat) := by omega
    rw [if_neg hz, if_neg hlt2]
    refine ⟨{ matchId := mid, matchCode := jsToUpper (jsTake mid 12), categoryId := catId, categoryName := cat.name, numberOfQuestions := (jsOrI nQ 5).toNat, questionTimeLimit := jsOrI tQ 30, players := [{ userId := uid, socketId := sid, username := un, answered := false, disconnected := false, finishReady := false }], questionsData := List.map projectQuestion sampled, currentQuestionIndex := 0, scores := [(uid, 0)], answers := [], state := "waiting", timerInterval := none, gracePeriodTimeout := none }, ?_, rfl, by simp [hlen]⟩
    unfold roomsGet
    dsimp only
    rw [alistGet_set]
    by_cases hc : jsToUpper (jsTake mid 12) = mid
    · rw [if_pos hc]
      simp [alistGet_set]
    · rw [if_neg hc, alistGet_set, if_pos rfl]
      simp [alistGet_set]

/-- Witness for the amended C5: the three unapproved active questions are
all accepted by the filter and produce a Room with exactly three
snapshots. -/
theorem C5_amended_witness :
    validSample [unapprovedQ 1, unapprovedQ 2, unapprovedQ 3] "cat1" 3
      [unapprovedQ 1, unapprovedQ 2, unapprovedQ 3] = true ∧
    (∃ r, roomsGet (createMatch Sys.empty [catGeneral] "cat1" "alice"
        "sockA" "Alice" (some 3) (some 30) midA
        [unapprovedQ 1, unapprovedQ 2, unapprovedQ 3]).1 midA = some r ∧
      r.questionsData =
        [unapprovedQ 1, unapprovedQ 2, unapprovedQ 3].map projectQuestion ∧
      r.questionsData.length = 3) :=
  ⟨by decide,
   (C5_amended Sys.empty [catGeneral] catGeneral "cat1" "alice" "sockA"
      "Alice" (some 3) (some 30) midA
      [unapprovedQ 1, unapprovedQ 2, unapprovedQ 3]
      [unapprovedQ 1, unapprovedQ 2, unapprovedQ 3]
      (by decide) (by decide) (by decide) (by decide) (by decide)
      (by decide)).2.2 (by decide)⟩

/-! ## C1: question-results broadcasts per index (corrected) -/

/-- **C1 (counterexample).** The claim as stated is false: in a complete
concrete run both players answer question 0 — emitting the first
question-results broadcast — and the question-0 deadline timer then fires
while the current question index is still 0; its only re-check is the
index, so it emits a second question-results broadcast for the same
index. -/
theorem C1_counterexample : ¬ claimC1Prop := by
  intro hclaim
  exact absurd (hclaim Sys.empty traceC1 midA 0) (by decide)

/-- **C1 (amended).** The deadline callback re-checks only the current
question index of the captured Room object: when the index has moved on
(or the object is gone) the fire emits nothing; but when the index is
unchanged and the match id still resolves to a room holding that question,
the fire emits question-timeout followed by a question-results broadcast —
with no check of whether both players already answered, so a deadline
firing after both answered re-broadcasts results for the same index. -/
theorem C1_amended (sys : Sys) (tid : Nat) (objKey mid : String) (i : Nat)
    (hfind : sys.pending.find? (fun t => t.1 == tid) =
      some (tid, .qDeadline objKey mid i)) :
    ((∀ r, alistGet sys.store objKey = some r → r.currentQuestionIndex ≠ i) →
      (fireTimer sys tid).2 = []) ∧
    (∀ r m' rr q, alistGet sys.store objKey = some r →
      r.currentQuestionIndex = i →
      roomsGetK sys mid = some (m', rr) →
      rr.questionsData.get? i = some q →
      (fireTimer sys tid).2 =
        [.questionTimeout mid i,
         .questionResults mid i q.correctOptionId rr.scores rr.answers]) := by
  constructor
  · intro hno
    unfold fireTimer
    rw [hfind]
    dsimp only
    cases hobj : alistGet sys.store objKey with
    | none => rfl
    | some r =>
      dsimp only
      rw [if_neg (by simp [hno r hobj])]
  · intro r m' rr q hobj hidx hget hq
    unfold fireTimer
    rw [hfind]
    dsimp only
    rw [hobj]
    dsimp only
    rw [if_pos (by simp [hidx])]
    have hget' : roomsGetK
        { sys with pending := sys.pending.filter (fun t => t.1 != tid) } mid =
        some (m', rr) := hget
    rw [display_spec _ mid i m' rr q hget' hq]

/-- Witness for the amended C1: firing the armed deadline of the concrete
room (index unchanged) emits question-timeout plus question-results. -/
theorem C1_amended_witness :
    sysW.pending.find? (fun t => t.1 == 2) =
      some (2, .qDeadline "m1" "m1" 0) ∧
    (fireTimer sysW 2).2 =
      [.questionTimeout "m1" 0,
       .questionResults "m1" 0 1 [("alice", 0)] []] := by
  have hfind : sysW.pending.find? (fun t => t.1 == 2) =
      some (2, .qDeadline "m1" "m1" 0) := by decide
  refine ⟨hfind, ?_⟩
  exact (C1_amended sysW 2 "m1" "m1" 0 hfind).2 roomW "m1" roomW (snapQ 1)
    (by decide) (by decide) (by decide) (by decide)

/-! ## C6: disconnect grace period -/

/-- A freshly armed timer id is found (with its kind) at the end of the
pending list. -/
theorem find?_fresh (l : List (Nat × TimerKind)) (tid : Nat) (k : TimerKind)
    (hfresh : ∀ t ∈ l, t.1 ≠ tid) :
    (l ++ [(tid, k)]).find? (fun t => t.1 == tid) = some (tid, k) := by
  induction l with
  | nil => simp [List.find?]
  | cons t l ih =>
    have ht : (t.1 == tid) = false := by simp [hfresh t (by simp)]
    simp only [List.cons_append, List.find?, ht]
    exact ih (fun x hx => hfresh x (by simp [hx]))

/-- endMatch only removes pending timers, it never arms new ones. -/
theorem endMatch_pending_subset (sys : Sys) (mid : String)
    (f : Option String) (rsn : String) :
    ∀ t ∈ ((endMatch sys mid f rsn).1).pending, t ∈ sys.pending := by
  unfold endMatch
  cases hg : roomsGet sys mid with
  | none => exact fun t ht => ht
  | some room =>
    intro t ht
    dsimp only at ht
    exact (List.mem_filter.mp ht).1

/-- **C6.** For every player of a two-player room who disconnects (either
list position), the handler sets that player's `disconnected` flag and
arms the grace timer: if the player reconnects before the timer fires,
the `disconnected` flag is cleared again (and the socket rebound) and the
fire is a no-op — it emits nothing and the room still resolves; if no
reconnect happens, the fire finalizes the match exactly once with that
player as forfeiter — a single match-ended broadcast naming the opponent
as winner with unchanged scores — and a repeat fire of the same timer
emits nothing. -/
theorem C6_grace_period (sys : Sys) (mid m : String) (r : Room)
    (p1 p2 : Player)
    (h : roomsGetK sys mid = some (m, r))
    (hps : r.players = [p1, p2])
    (hneu : p1.userId ≠ p2.userId)
    (hnes : p1.socketId ≠ p2.socketId)
    (hfresh : ∀ t ∈ sys.pending, t.1 ≠ sys.nextTid) :
    (roomsGet (handleDisconnect sys mid p2.socketId).1 mid = some { r with players := [p1, { p2 with disconnected := true }], gracePeriodTimeout := some sys.nextTid } ∧
     (∀ nsid,
       roomsGet (reconnectMatch (handleDisconnect sys mid p2.socketId).1 mid p2.userId nsid).1 mid = some { r with players := [p1, { p2 with socketId := nsid, disconnected := false }], gracePeriodTimeout := some sys.nextTid } ∧
       (fireTimer (reconnectMatch (handleDisconnect sys mid p2.socketId).1
           mid p2.userId nsid).1 sys.nextTid).2 = [] ∧
       roomsGet (fireTimer (reconnectMatch (handleDisconnect sys mid
           p2.socketId).1 mid p2.userId nsid).1 sys.nextTid).1 mid =
         roomsGet (reconnectMatch (handleDisconnect sys mid p2.socketId).1
           mid p2.userId nsid).1 mid) ∧
     (fireTimer (handleDisconnect sys mid p2.socketId).1 sys.nextTid).2 =
       [.matchEnded mid (some p1.userId) r.scores
         "Did not reconnect in time"] ∧
     (fireTimer (fireTimer (handleDisconnect sys mid p2.socketId).1
         sys.nextTid).1 sys.nextTid).2 = []) ∧
    (roomsGet (handleDisconnect sys mid p1.socketId).1 mid = some { r with players := [{ p1 with disconnected := true }, p2], gracePeriodTimeout := some sys.nextTid } ∧
     (∀ nsid,
       roomsGet (reconnectMatch (handleDisconnect sys mid p1.socketId).1 mid p1.userId nsid).1 mid = some { r with players := [{ p1 with socketId := nsid, disconnected := false }, p2], gracePeriodTimeout := some sys.nextTid } ∧
       (fireTimer (reconnectMatch (handleDisconnect sys mid p1.socketId).1
           mid p1.userId nsid).1 sys.nextTid).2 = [] ∧
       roomsGet (fireTimer (reconnectMatch (handleDisconnect sys mid
           p1.socketId).1 mid p1.userId nsid).1 sys.nextTid).1 mid =
         roomsGet (reconnectMatch (handleDisconnect sys mid p1.socketId).1
           mid p1.userId nsid).1 mid) ∧
     (fireTimer (handleDisconnect sys mid p1.socketId).1 sys.nextTid).2 =
       [.matchEnded mid (some p2.userId) r.scores
         "Did not reconnect in time"] ∧
     (fireTimer (fireTimer (handleDisconnect sys mid p1.socketId).1
         sys.nextTid).1 sys.nextTid).2 = []) := by
  obtain ⟨h1, h2⟩ := roomsGetK_some h
  have hbs : (p1.socketId == p2.socketId) = false := by simp [hnes]
  have hbu : (p1.userId == p2.userId) = false := by simp [hneu]
  have hbu' : (p2.userId == p1.userId) = false := by
    rw [beq_eq_false_iff_ne]
    exact fun e => hneu e.symm
  have hbne : (p1.userId != p2.userId) = true := by simp [bne_iff_ne, hneu]
  have hbne21 : (p2.userId != p1.userId) = true := by
    rw [bne_iff_ne]
    exact fun e => hneu e.symm
  have hfindS : r.players.find? (fun p => p.socketId == p2.socketId) =
      some p2 := by
    rw [hps]
    simp [List.find?, hbs]
  have hmark : markDisconnectedFirst p2.socketId r.players = [p1, { p2 with disconnected := true }] := by
    rw [hps]
    simp [markDisconnectedFirst, hbs]
  have hS1 : (handleDisconnect sys mid p2.socketId).1 = { index := sys.index, store := alistSet sys.store m { r with players := [p1, { p2 with disconnected := true }], gracePeriodTimeout := some sys.nextTid }, matchesDb := sys.matchesDb, pending := sys.pending ++ [(sys.nextTid, TimerKind.grace m mid p2.userId)], nextTid := sys.nextTid + 1 } := by
    unfold handleDisconnect
    rw [h]
    dsimp only
    rw [hfindS]
    dsimp only
    rw [hmark]
    rfl
  have hfw : ([p1, { p2 with disconnected := true }].find? fun p => p.userId != p2.userId) = some p1 := by
    simp [List.find?, hbne]
  have hfire1 : fireTimer (handleDisconnect sys mid p2.socketId).1 sys.nextTid = endMatch { index := sys.index, store := alistSet sys.store m { r with players := [p1, { p2 with disconnected := true }], gracePeriodTimeout := some sys.nextTid }, matchesDb := sys.matchesDb, pending := (sys.pending ++ [(sys.nextTid, TimerKind.grace m mid p2.userId)]).filter (fun t => t.1 != sys.nextTid), nextTid := sys.nextTid + 1 } mid (some p2.userId) "Did not reconnect in time" := by
    rw [hS1]
    unfold fireTimer
    rw [find?_fresh _ _ _ hfresh]
    dsimp only
    rw [alistGet_set, if_pos rfl]
    dsimp only
    rw [if_pos (by simp [hbu])]
  have hgA : roomsGet { index := sys.index, store := alistSet sys.store m { r with players := [p1, { p2 with disconnected := true }], gracePeriodTimeout := some sys.nextTid }, matchesDb := sys.matchesDb, pending := (sys.pending ++ [(sys.nextTid, TimerKind.grace m mid p2.userId)]).filter (fun t => t.1 != sys.nextTid), nextTid := sys.nextTid + 1 } mid = some { r with players := [p1, { p2 with disconnected := true }], gracePeriodTimeout := some sys.nextTid } := by
    unfold roomsGet
    dsimp only
    rw [h1]
    simp [alistGet_set]
  have hfindSb : r.players.find? (fun p => p.socketId == p1.socketId) =
      some p1 := by
    rw [hps]
    simp [List.find?]
  have hmarkb : markDisconnectedFirst p1.socketId r.players = [{ p1 with disconnected := true }, p2] := by
    rw [hps]
    simp [markDisconnectedFirst]
  have hS1b : (handleDisconnect sys mid p1.socketId).1 = { index := sys.index, store := alistSet sys.store m { r with players := [{ p1 with disconnected := true }, p2], gracePeriodTimeout := some sys.nextTid }, matchesDb := sys.matchesDb, pending := sys.pending ++ [(sys.nextTid, TimerKind.grace m mid p1.userId)], nextTid := sys.nextTid + 1 } := by
    unfold handleDisconnect
    rw [h]
    dsimp only
    rw [hfindSb]
    dsimp only
    rw [hmarkb]
    rfl
  have hfwb : ([{ p1 with disconnected := true }, p2].find? fun p => p.userId != p1.userId) = some p2 := by
    simp [List.find?, hbne21]
  have hfire1b : fireTimer (handleDisconnect sys mid p1.socketId).1 sys.nextTid = endMatch { index := sys.index, store := alistSet sys.store m { r with players := [{ p1 with disconnected := true }, p2], gracePeriodTimeout := some sys.nextTid }, matchesDb := sys.matchesDb, pending := (sys.pending ++ [(sys.nextTid, TimerKind.grace m mid p1.userId)]).filter (fun t => t.1 != sys.nextTid), nextTid := sys.nextTid + 1 } mid (some p1.userId) "Did not reconnect in time" := by
    rw [hS1b]
    unfold fireTimer
    rw [find?_fresh _ _ _ hfresh]
    dsimp only
    rw [alistGet_set, if_pos rfl]
    dsimp only
    rw [if_pos (by simp)]
  have hgAb : roomsGet { index := sys.index, store := alistSet sys.store m { r with players := [{ p1 with disconnected := true }, p2], gracePeriodTimeout := some sys.nextTid }, matchesDb := sys.matchesDb, pending := (sys.pending ++ [(sys.nextTid, TimerKind.grace m mid p1.userId)]).filter (fun t => t.1 != sys.nextTid), nextTid := sys.nextTid + 1 } mid = some { r with players := [{ p1 with disconnected := true }, p2], gracePeriodTimeout := some sys.nextTid } := by
    unfold roomsGet
    dsimp only
    rw [h1]
    simp [alistGet_set]
  refine ⟨⟨?_, ?_, ?_, ?_⟩, ⟨?_, ?_, ?_, ?_⟩⟩
  · rw [hS1]
    unfold roomsGet
    dsimp only
    rw [h1]
    simp [alistGet_set]
  · intro nsid
    have hmark2 : markReconnectedFirst p2.userId nsid [p1, { p2 with disconnected := true }] = [p1, { p2 with socketId := nsid, disconnected := false }] := by
      simp [markReconnectedFirst, hbu]
    have hk1 : roomsGetK (handleDisconnect sys mid p2.socketId).1 mid = some (m, { r with players := [p1, { p2 with disconnected := true }], gracePeriodTimeout := some sys.nextTid }) := by
      rw [hS1]
      exact roomsGetK_mk h1 (by simp [alistGet_set])
    have hS2 : (reconnectMatch (handleDisconnect sys mid p2.socketId).1 mid p2.userId nsid).1 = { index := sys.index, store := alistSet (alistSet sys.store m { r with players := [p1, { p2 with disconnected := true }], gracePeriodTimeout := some sys.nextTid }) m { r with players := [p1, { p2 with socketId := nsid, disconnected := false }], gracePeriodTimeout := some sys.nextTid }, matchesDb := sys.matchesDb, pending := sys.pending ++ [(sys.nextTid, TimerKind.grace m mid p2.userId)], nextTid := sys.nextTid + 1 } := by
      unfold reconnectMatch
      rw [hk1]
      dsimp only
      rw [hmark2]
      rw [hS1]
      rfl
    have hrec : roomsGet (reconnectMatch (handleDisconnect sys mid p2.socketId).1 mid p2.userId nsid).1 mid = some { r with players := [p1, { p2 with socketId := nsid, disconnected := false }], gracePeriodTimeout := some sys.nextTid } := by
      rw [hS2]
      unfold roomsGet
      dsimp only
      rw [h1]
      simp [alistGet_set]
    refine ⟨hrec, ?_⟩
    rw [hS2]
    unfold fireTimer
    rw [find?_fresh _ _ _ hfresh]
    dsimp only
    rw [alistGet_set, if_pos rfl]
    dsimp only
    rw [if_neg (by simp [hbu])]
    exact ⟨rfl, rfl⟩
  · rw [hfire1]
    unfold endMatch
    rw [hgA]
    dsimp only
    rw [hfw]
    rfl
  · rw [hfire1]
    unfold fireTimer
    rw [List.find?_eq_none.mpr ?hnone]
    case hnone =>
      intro t ht
      have hmem := endMatch_pending_subset _ _ _ _ t ht
      dsimp only at hmem
      have := (List.mem_filter.mp hmem).2
      simpa using this
  · rw [hS1b]
    unfold roomsGet
    dsimp only
    rw [h1]
    simp [alistGet_set]
  · intro nsid
    have hmark2b : markReconnectedFirst p1.userId nsid [{ p1 with disconnected := true }, p2] = [{ p1 with socketId := nsid, disconnected := false }, p2] := by
      simp [markReconnectedFirst]
    have hk1b : roomsGetK (handleDisconnect sys mid p1.socketId).1 mid = some (m, { r with players := [{ p1 with disconnected := true }, p2], gracePeriodTimeout := some sys.nextTid }) := by
      rw [hS1b]
      exact roomsGetK_mk h1 (by simp [alistGet_set])
    have hS2b : (reconnectMatch (handleDisconnect sys mid p1.socketId).1 mid p1.userId nsid).1 = { index := sys.index, store := alistSet (alistSet sys.store m { r with players := [{ p1 with disconnected := true }, p2], gracePeriodTimeout := some sys.nextTid }) m { r with players := [{ p1 with socketId := nsid, disconnected := false }, p2], gracePeriodTimeout := some sys.nextTid }, matchesDb := sys.matchesDb, pending := sys.pending ++ [(sys.nextTid, TimerKind.grace m mid p1.userId)], nextTid := sys.nextTid + 1 } := by
      unfold reconnectMatch
      rw [hk1b]
      dsimp only
      rw [hmark2b]
      rw [hS1b]
      rfl
    have hrecb : roomsGet (reconnectMatch (handleDisconnect sys mid p1.socketId).1 mid p1.userId nsid).1 mid = some { r with players := [{ p1 with socketId := nsid, disconnected := false }, p2], gracePeriodTimeout := some sys.nextTid } := by
      rw [hS2b]
      unfold roomsGet
      dsimp only
      rw [h1]
      simp [alistGet_set]
    refine ⟨hrecb, ?_⟩
    rw [hS2b]
    unfold fireTimer
    rw [find?_fresh _ _ _ hfresh]
    dsimp only
    rw [alistGet_set, if_pos rfl]
    dsimp only
    rw [if_neg (by simp [hbu'])]
    exact ⟨rfl, rfl⟩
  · rw [hfire1b]
    unfold endMatch
    rw [hgAb]
    dsimp only
    rw [hfwb]
    rfl
  · rw [hfire1b]
    unfold fireTimer
    rw [List.find?_eq_none.mpr ?hnone]
    case hnone =>
      intro t ht
      have hmem := endMatch_pending_subset _ _ _ _ t ht
      dsimp only at hmem
      have := (List.mem_filter.mp hmem).2
      simpa using this

/-- Witness for C6 at the concrete room, exercising both players: each of
Bob and Alice disconnecting sets their flag; reconnecting makes the grace
fire emit nothing; not reconnecting makes the fire end the match once
naming the other the winner. -/
theorem C6_grace_period_witness :
    (fireTimer (handleDisconnect sysW "m1" playerBob.socketId).1 3).2 =
      [.matchEnded "m1" (some "alice") [("alice", 0)]
        "Did not reconnect in time"] ∧
    (fireTimer (reconnectMatch (handleDisconnect sysW "m1"
        playerBob.socketId).1 "m1" playerBob.userId "sockB2").1 3).2 = [] ∧
    (fireTimer (handleDisconnect sysW "m1" playerAlice.socketId).1 3).2 =
      [.matchEnded "m1" (some "bob") [("alice", 0)]
        "Did not reconnect in time"] ∧
    (fireTimer (reconnectMatch (handleDisconnect sysW "m1"
        playerAlice.socketId).1 "m1" playerAlice.userId "sockA2").1 3).2 =
      [] ∧
    roomsGet (handleDisconnect sysW "m1" playerAlice.socketId).1 "m1" =
      some { roomW with players := [{ playerAlice with disconnected := true }, playerBob], gracePeriodTimeout := some 3 } := by
  have h := C6_grace_period sysW "m1" "m1" roomW playerAlice playerBob
    (by decide) rfl (by decide) (by decide) (by decide)
  exact ⟨h.1.2.2.1, (h.1.2.1 "sockB2").2.1, h.2.2.2.1,
    (h.2.2.1 "sockA2").2.1, h.2.1⟩

/-! ## C8: score monotonicity and the exact score deltas -/

/-- Writing a room changes `storeScore` only at its key. -/
theorem storeScore_write (sys : Sys) (m' : String) (r' : Room) (m u : String) :
    storeScore (writeRoom sys m' r') m u =
      if m' = m then getScore r' u else storeScore sys m u := by
  unfold storeScore writeRoom
  dsimp only
  rw [alistGet_set]
  by_cases he : m' = m
  · rw [if_pos he, if_pos he]
  · rw [if_neg he, if_neg he]

/-- Writing back a room with unchanged scores preserves every score. -/
theorem storeScore_write_same (sys : Sys) (m' : String) (r r' : Room)
    (m u : String) (h2 : alistGet sys.store m' = some r)
    (hsc : r'.scores = r.scores) :
    storeScore (writeRoom sys m' r') m u = storeScore sys m u := by
  rw [storeScore_write]
  by_cases he : m' = m
  · subst he
    rw [if_pos rfl]
    unfold storeScore
    rw [h2]
    unfold getScore
    rw [hsc]
  · rw [if_neg he]

/-- Writing back a room whose only score change is one user's entry raised
by `d` leaves every score equal or raised by exactly `d`. -/
theorem storeScore_write_delta (sys : Sys) (m' : String) (r r' : Room)
    (m u uid : String) (d : Nat)
    (h2 : alistGet sys.store m' = some r)
    (hsc : r'.scores = alistSet r.scores uid (getScore r uid + d)) :
    storeScore (writeRoom sys m' r') m u = storeScore sys m u ∨
    storeScore (writeRoom sys m' r') m u = storeScore sys m u + d := by
  rw [storeScore_write]
  by_cases he : m' = m
  · subst he
    rw [if_pos rfl]
    have hR : storeScore sys m' u = getScore r u := by
      unfold storeScore
      rw [h2]
    rw [hR]
    unfold getScore
    rw [hsc, alistGet_set]
    by_cases hu : uid = u
    · right
      rw [if_pos hu]
      simp [hu, getScore]
    · left
      rw [if_neg hu]
  · left
    rw [if_neg he]

/-- endMatch never changes a stored score. -/
theorem storeScore_endMatch (sys : Sys) (mid : String) (f : Option String)
    (rsn : String) (m u : String) :
    storeScore ((endMatch sys mid f rsn).1) m u = storeScore sys m u := by
  unfold endMatch
  cases hg : roomsGet sys mid with
  | none => rfl
  | some room => rfl

/-- displayQuestionResults never changes a stored score (it clears only the
answer log). -/
theorem storeScore_display (sys : Sys) (mid : String) (qi : Nat)
    (m u : String) :
    storeScore ((displayQuestionResults sys mid qi).1) m u =
      storeScore sys m u := by
  unfold displayQuestionResults
  cases hk : roomsGetK sys mid with
  | none => rfl
  | some pr =>
    obtain ⟨m', r⟩ := pr
    obtain ⟨h1, h2⟩ := roomsGetK_some hk
    dsimp only
    cases hq : r.questionsData.get? qi with
    | none => rfl
    | some q =>
      dsimp only
      exact storeScore_write_same sys m' r _ m u h2 rfl

/-- deliverQuestion never changes a stored score. -/
theorem storeScore_deliver (sys : Sys) (mid : String) (qi : Nat)
    (m u : String) :
    storeScore ((deliverQuestion sys mid qi).1) m u = storeScore sys m u := by
  unfold deliverQuestion
  cases hk : roomsGetK sys mid with
  | none => rfl
  | some pr =>
    obtain ⟨m', r⟩ := pr
    obtain ⟨h1, h2⟩ := roomsGetK_some hk
    dsimp only
    cases hq : r.questionsData.get? qi with
    | none => rfl
    | some q =>
      dsimp only
      exact storeScore_write_same sys m' r _ m u h2 rfl

/-- startMatch never changes a stored score. -/
theorem storeScore_start (sys : Sys) (mid : String) (m u : String) :
    storeScore ((startMatch sys mid).1) m u = storeScore sys m u := by
  unfold startMatch
  cases hk : roomsGetK sys mid with
  | none => rfl
  | some pr =>
    obtain ⟨m', r⟩ := pr
    obtain ⟨h1, h2⟩ := roomsGetK_some hk
    dsimp only
    exact storeScore_write_same sys m' r _ m u h2 rfl

/-- next-question never changes a stored score. -/
theorem storeScore_next (sys : Sys) (mid : String) (m u : String) :
    storeScore ((nextQuestion sys mid).1) m u = storeScore sys m u := by
  unfold nextQuestion
  cases hk : roomsGetK sys mid with
  | none => rfl
  | some pr =>
    obtain ⟨m', r⟩ := pr
    obtain ⟨h1, h2⟩ := roomsGetK_some hk
    dsimp only
    have hw : storeScore (writeRoom sys m'
        { r with currentQuestionIndex := r.currentQuestionIndex + 1 }) m u =
        storeScore sys m u :=
      storeScore_write_same sys m' r _ m u h2 rfl
    by_cases hc : r.currentQuestionIndex + 1 ≥ r.questionsData.length
    · rw [if_pos hc, storeScore_endMatch, hw]
    · rw [if_neg hc, storeScore_deliver, hw]

/-- finish-quiz never changes a stored score. -/
theorem storeScore_finish (sys : Sys) (mid uid : String) (m u : String) :
    storeScore ((finishQuiz sys mid uid).1) m u = storeScore sys m u := by
  unfold finishQuiz
  cases hk : roomsGetK sys mid with
  | none => rfl
  | some pr =>
    obtain ⟨m', r⟩ := pr
    obtain ⟨h1, h2⟩ := roomsGetK_some hk
    dsimp only
    have hw : storeScore (writeRoom sys m'
        { r with players := setFinishReadyFirst uid r.players }) m u =
        storeScore sys m u :=
      storeScore_write_same sys m' r _ m u h2 rfl
    by_cases hc : (setFinishReadyFirst uid r.players).length ≥ 2 ∧
        ((setFinishReadyFirst uid r.players).all fun p => p.finishReady) = true
    · rw [if_pos hc, storeScore_endMatch, hw]
    · rw [if_neg hc, hw]

/-- reconnect-match never changes a stored score. -/
theorem storeScore_reconnect (sys : Sys) (mid uid nsid : String)
    (m u : String) :
    storeScore ((reconnectMatch sys mid uid nsid).1) m u =
      storeScore sys m u := by
  unfold reconnectMatch
  cases hk : roomsGetK sys mid with
  | none => rfl
  | some pr =>
    obtain ⟨m', r⟩ := pr
    obtain ⟨h1, h2⟩ := roomsGetK_some hk
    dsimp only
    exact storeScore_write_same sys m' r _ m u h2 rfl

/-- The disconnect handler never changes a stored score. -/
theorem storeScore_disconnect (sys : Sys) (mid sid : String) (m u : String) :
    storeScore ((handleDisconnect sys mid sid).1) m u = storeScore sys m u := by
  unfold handleDisconnect
  cases hk : roomsGetK sys mid with
  | none => rfl
  | some pr =>
    obtain ⟨m', r⟩ := pr
    obtain ⟨h1, h2⟩ := roomsGetK_some hk
    dsimp only
    cases hf : r.players.find? (fun p => p.socketId == sid) with
    | none => rfl
    | some player =>
      dsimp only
      exact storeScore_write_same sys m' r _ m u h2 rfl

/-- Firing any timer never changes a stored score (the deadline path only
re-broadcasts, the grace and end paths finalize). -/
theorem storeScore_fire (sys : Sys) (tid : Nat) (m u : String) :
    storeScore ((fireTimer sys tid).1) m u = storeScore sys m u := by
  unfold fireTimer
  cases hf : sys.pending.find? (fun t => t.1 == tid) with
  | none => rfl
  | some tk =>
    obtain ⟨tid0, k⟩ := tk
    dsimp only
    cases k with
    | qDeadline objKey mid qi =>
      dsimp only
      cases ho : alistGet sys.store objKey with
      | none => rfl
      | some room =>
        dsimp only
        by_cases hc : (room.currentQuestionIndex == qi) = true
        · rw [if_pos hc]
          exact storeScore_display _ mid qi m u
        · rw [if_neg hc]
          rfl
    | grace objKey mid uid =>
      dsimp only
      cases ho : alistGet sys.store objKey with
      | none => rfl
      | some room =>
        dsimp only
        by_cases hc : (room.players.any fun p =>
            p.userId == uid && p.disconnected) = true
        · rw [if_pos hc]
          exact storeScore_endMatch _ mid (some uid) _ m u
        · rw [if_neg hc]
          rfl
    | startDelay mid => exact storeScore_start _ mid m u
    | firstQuestion mid => exact storeScore_deliver _ mid 0 m u
    | endDelay mid => exact storeScore_endMatch _ mid none _ m u

/-- submit-answer changes a stored score only by the awarded XP: every
stored score is unchanged or raised by exactly 10. -/
theorem storeScore_submit (sys : Sys) (mid uid : String) (qi : Nat)
    (sel : Int) (m u : String) :
    storeScore ((submitAnswer sys mid uid qi sel).1) m u = storeScore sys m u ∨
    storeScore ((submitAnswer sys mid uid qi sel).1) m u =
      storeScore sys m u + 10 := by
  unfold submitAnswer
  cases hk : roomsGetK sys mid with
  | none => left; rfl
  | some pr =>
    obtain ⟨m', r⟩ := pr
    obtain ⟨h1, h2⟩ := roomsGetK_some hk
    dsimp only
    cases hq : r.questionsData.get? qi with
    | none => left; rfl
    | some q =>
      dsimp only
      have hk1 : roomsGetK (writeRoom sys m' (answeredRoom r uid qi sel q))
          mid = some (m', answeredRoom r uid qi sel q) :=
        roomsGetK_write _ h1
      have hq1 : (answeredRoom r uid qi sel q).questionsData.get? qi =
          some q := hq
      have h2' : alistGet (writeRoom sys m' (answeredRoom r uid qi sel q)).store
          m' = some (answeredRoom r uid qi sel q) := by
        unfold writeRoom
        dsimp only
        rw [alistGet_set, if_pos rfl]
      have hdelta : storeScore (writeRoom sys m'
          (answeredRoom r uid qi sel q)) m u = storeScore sys m u ∨
          storeScore (writeRoom sys m' (answeredRoom r uid qi sel q)) m u =
            storeScore sys m u + 10 := by
        have hD := storeScore_write_delta sys m' r (answeredRoom r uid qi sel q)
          m u uid (if sel == q.correctOptionId then 10 else 0) h2 rfl
        by_cases hcor : (sel == q.correctOptionId) = true
        · rw [if_pos hcor] at hD
          exact hD
        · rw [if_neg hcor] at hD
          left
          rcases hD with hD | hD
          · exact hD
          · rw [hD]
            omega
      have hsame : storeScore (writeRoom (writeRoom sys m'
          (answeredRoom r uid qi sel q)) m'
          { answeredRoom r uid qi sel q with answers := [] }) m u =
          storeScore (writeRoom sys m' (answeredRoom r uid qi sel q)) m u :=
        storeScore_write_same _ m' (answeredRoom r uid qi sel q) _ m u h2' rfl
      by_cases hall : ((answeredRoom r uid qi sel q).players.all
          fun p => p.answered) = true
      · rw [if_pos hall, display_spec _ mid qi m' _ q hk1 hq1]
        dsimp only
        by_cases hlast : qi + 1 ≥ r.questionsData.length
        · rw [if_pos hlast]
          rcases hdelta with hd | hd
          · left
            rw [← hd, ← hsame]
            rfl
          · right
            rw [← hd, ← hsame]
            rfl
        · rw [if_neg hlast]
          rcases hdelta with hd | hd
          · left
            rw [← hd, ← hsame]
          · right
            rw [← hd, ← hsame]
      · rw [if_neg hall]
        exact hdelta

/-- forfeit-match changes a stored score only by the forfeiture bonus:
every stored score is unchanged or raised by exactly 50. -/
theorem storeScore_forfeit (sys : Sys) (mid uid : String) (m u : String) :
    storeScore ((forfeitMatch sys mid uid).1) m u = storeScore sys m u ∨
    storeScore ((forfeitMatch sys mid uid).1) m u =
      storeScore sys m u + 50 := by
  unfold forfeitMatch
  cases hk : roomsGetK sys mid with
  | none =>
    left
    rw [storeScore_endMatch]
  | some pr =>
    obtain ⟨m', r⟩ := pr
    obtain ⟨h1, h2⟩ := roomsGetK_some hk
    dsimp only
    cases hf : r.players.find? (fun p => p.userId != uid) with
    | none =>
      left
      rw [storeScore_endMatch]
    | some opp =>
      dsimp only
      rw [storeScore_endMatch]
      exact storeScore_write_delta sys m' r _ m u opp.userId 50 h2 rfl

/-- **C8.** Across every run of the operations the claim lists — submit
answer, display results and next question (the question flow), finish,
forfeit, the timer fires (deadline re-broadcast, grace-period and delayed
finalize), reconnect and disconnect — every stored running score is
monotone: submit leaves each score unchanged or adds exactly its 10-XP
award, forfeit leaves each score unchanged or adds exactly the one-time
50-point bonus, and all the other listed operations never change any
stored score. -/
theorem C8_score_monotonic :
    (∀ sys mid uid qi sel m u,
      storeScore ((step sys (.submitEv mid uid qi sel)).1) m u =
        storeScore sys m u ∨
      storeScore ((step sys (.submitEv mid uid qi sel)).1) m u =
        storeScore sys m u + 10) ∧
    (∀ sys mid uid m u,
      storeScore ((step sys (.forfeitEv mid uid)).1) m u =
        storeScore sys m u ∨
      storeScore ((step sys (.forfeitEv mid uid)).1) m u =
        storeScore sys m u + 50) ∧
    (∀ sys mid m u,
      storeScore ((step sys (.nextQEv mid)).1) m u = storeScore sys m u) ∧
    (∀ sys mid uid m u,
      storeScore ((step sys (.finishEv mid uid)).1) m u = storeScore sys m u) ∧
    (∀ sys tid m u,
      storeScore ((step sys (.fireEv tid)).1) m u = storeScore sys m u) ∧
    (∀ sys mid uid nsid m u,
      storeScore ((step sys (.reconnectEv mid uid nsid)).1) m u =
        storeScore sys m u) ∧
    (∀ sys mid sid m u,
      storeScore ((step sys (.disconnectEv mid sid)).1) m u =
        storeScore sys m u) :=
  ⟨fun sys mid uid qi sel m u => storeScore_submit sys mid uid qi sel m u,
   fun sys mid uid m u => storeScore_forfeit sys mid uid m u,
   fun sys mid m u => storeScore_next sys mid m u,
   fun sys mid uid m u => storeScore_finish sys mid uid m u,
   fun sys tid m u => storeScore_fire sys tid m u,
   fun sys mid uid nsid m u => storeScore_reconnect sys mid uid nsid m u,
   fun sys mid sid m u => storeScore_disconnect sys mid sid m u⟩

end SkillDuels
